import Mathlib

/-!
Verification of the vestibular SNN experiment driver
(`appendix_A_brian2.py` and `src/run_baseline.py`).

Shallow embedding conventions:
* voltages are rationals in mV, times in ms, rates in Hz (the Python code
  uses brian2 unit-carrying floats; every quantity the claims touch is an
  exact decimal, so `ℚ` is faithful);
* the external simulation engine (numerical ODE solving, Poisson spike
  generation, event scheduling) is out of scope per the spec: its
  randomness enters as explicit spike-train arguments, and its per-step
  euler update / threshold / synapse / reset schedule is embedded exactly
  as brian2 executes it for these model equations;
* fallible Python code (a `raise`) becomes `Except`/error outcomes.
-/

namespace VestibularSNN

/-- Membrane time constant, `tau = 10*ms` (appendix_A_brian2.py line 48,
run_baseline.py line 11). -/
def tau : ℚ := 10

/-- Resting potential, `v_rest = -65*mV` (line 49). -/
def v_rest : ℚ := -65

/-- Reset potential, `v_reset = -65*mV` (line 50). -/
def v_reset : ℚ := -65

/-- Spike threshold, `v_thresh = -50*mV` (line 51). -/
def v_thresh : ℚ := -50

/-- The four neuron constants bundled, as both `NeuronGroup`s consume them. -/
structure NeuronConsts where
  tau : ℚ
  v_rest : ℚ
  v_reset : ℚ
  v_thresh : ℚ
deriving DecidableEq, Repr

/-- The constants block of `run_sim` (appendix_A_brian2.py lines 47-51). -/
def neuronConsts : NeuronConsts :=
  { tau := tau, v_rest := v_rest, v_reset := v_reset, v_thresh := v_thresh }

/-- The constants block of `src/run_baseline.py` (lines 10-14). -/
def runBaselineConsts : NeuronConsts :=
  { tau := 10, v_rest := -65, v_reset := -65, v_thresh := -50 }

/-- The four recognized mode strings, in source order of the conditional. -/
def modeChoices : List String :=
  ["baseline", "hypofunction", "afferent_silencing", "synaptic_blockade"]

/-- Scenario-specific parameter resolution: the `if/elif` chain of `run_sim`
(appendix_A_brian2.py lines 53-78). Returns `(rate_hz, w_in_aff, w_aff_cer)`
or `none` for the `raise ValueError` branch. -/
def resolveMode (mode : String) (input_rate_hz w_in_aff_mV w_aff_cer_mV : ℚ) :
    Option (ℚ × ℚ × ℚ) :=
  if mode = "baseline" then
    some (input_rate_hz, w_in_aff_mV, w_aff_cer_mV)
  else if mode = "hypofunction" then
    some (15, w_in_aff_mV, w_aff_cer_mV)
  else if mode = "afferent_silencing" then
    some (input_rate_hz, 0, w_aff_cer_mV)
  else if mode = "synaptic_blockade" then
    some (input_rate_hz, w_in_aff_mV, 0)
  else
    none

/-- The error `run_sim` can raise itself: `ValueError(f"Unknown mode: ...")`
at line 78 — the spec taxonomy calls it InvalidScenario.  No other error is
raised by the repository's own code. -/
inductive SimError where
  | unknownMode : String → SimError
deriving DecidableEq, Repr

/-- A Poisson source population (`PoissonGroup(n_input, rates=rate_hz*Hz)`,
line 82). -/
structure PoissonLayer where
  n : ℤ
  rate_hz : ℚ
deriving DecidableEq, Repr

/-- A leaky-integrate-and-fire population (`NeuronGroup`, lines 89-105);
`hasAdaptation` distinguishes the afferent equations (with `a`) from the
cerebellar ones. -/
structure LIFLayer where
  n : ℤ
  consts : NeuronConsts
  hasAdaptation : Bool
deriving DecidableEq, Repr

/-- A synaptic pathway (`Synapses(..., on_pre='v_post += w')`, lines
108-112); connectivity is modelled separately by `connInAffPairs` /
`connAffCerPairs`. -/
structure SynPathway where
  nSource : ℤ
  nTarget : ℤ
  weight_mV : ℚ
deriving DecidableEq, Repr

/-- Everything `run_sim` constructs before calling `run(duration)`
(lines 80-117). -/
structure BuiltNetwork where
  input_layer : PoissonLayer
  afferent_layer : LIFLayer
  cerebellar_layer : LIFLayer
  syn_input_afferent : SynPathway
  syn_afferent_cerebellar : SynPathway
  duration_s : ℚ
  dt_ms : ℚ
deriving DecidableEq, Repr

/-- `run_sim` up to and including network assembly (appendix_A_brian2.py
lines 15-117): resolve the scenario parameters, then build the layers and
pathways.  Population sizes are `ℤ` because Python ints are unbounded and
the code never validates positivity.  The unknown-mode `raise` happens
before any layer is constructed, which the `Except` structure mirrors:
the error branch carries only the offending mode string. -/
def run_sim (mode : String) (duration_s dt_ms : ℚ)
    (n_input n_afferent n_cerebellar : ℤ)
    (input_rate_hz w_in_aff_mV w_aff_cer_mV : ℚ) :
    Except SimError BuiltNetwork :=
  match resolveMode mode input_rate_hz w_in_aff_mV w_aff_cer_mV with
  | none => .error (.unknownMode mode)
  | some (rate_hz, w_in_aff, w_aff_cer) =>
      .ok
        { input_layer := { n := n_input, rate_hz := rate_hz }
          afferent_layer :=
            { n := n_afferent, consts := neuronConsts, hasAdaptation := true }
          cerebellar_layer :=
            { n := n_cerebellar, consts := neuronConsts, hasAdaptation := false }
          syn_input_afferent :=
            { nSource := n_input, nTarget := n_afferent, weight_mV := w_in_aff }
          syn_afferent_cerebellar :=
            { nSource := n_afferent, nTarget := n_cerebellar, weight_mV := w_aff_cer }
          duration_s := duration_s
          dt_ms := dt_ms }

/-- One simulation resource, for tracking what exists when `run_sim` fails. -/
inductive SimResource where
  | population : String → ℤ → SimResource
  | pathway : String → SimResource
  | monitor : String → SimResource
deriving DecidableEq, Repr

/-- The resources `run_sim` allocates, in source order (lines 82-117):
three populations, two synaptic pathways, three spike monitors — or none
at all when resolution already failed. -/
def run_simResources (mode : String) (duration_s dt_ms : ℚ)
    (n_input n_afferent n_cerebellar : ℤ)
    (input_rate_hz w_in_aff_mV w_aff_cer_mV : ℚ) : List SimResource :=
  match run_sim mode duration_s dt_ms n_input n_afferent n_cerebellar
      input_rate_hz w_in_aff_mV w_aff_cer_mV with
  | .error _ => []
  | .ok net =>
      [.population "input_layer" net.input_layer.n,
       .population "afferent_layer" net.afferent_layer.n,
       .population "cerebellar_layer" net.cerebellar_layer.n,
       .pathway "syn_input_afferent",
       .pathway "syn_afferent_cerebellar",
       .monitor "spikemon_input",
       .monitor "spikemon_afferent",
       .monitor "spikemon_cerebellar"]

/-! ### Neuron dynamics

The afferent equations (lines 85-88) are
`dv/dt = (v_rest - v - a)/tau`, `da/dt = -a/(100*ms)`, method euler,
threshold `v > v_thresh`, reset `v = v_reset; a += 2*mV`; the cerebellar
equation (line 98) is `dv/dt = (v_rest - v)/tau`, reset `v = v_reset`.
brian2 executes each time step of length `dt` in schedule order:
state update (euler), thresholds, synapses (`v_post += w` per presynaptic
spike), resets.  A step takes the number of presynaptic spikes delivered
to the unit during that step. -/

/-- State of one afferent unit: membrane potential `v` and adaptation `a`.
Initially `v = v_rest` (line 95) and `a = 0` (brian2 default for an
uninitialized variable). -/
structure AffState where
  v : ℚ
  a : ℚ
deriving DecidableEq, Repr

/-- Initial afferent state (`afferent_layer.v = v_rest`, `a` defaulted). -/
def affInit : AffState := { v := v_rest, a := 0 }

/-- Euler update of the afferent equations over one step of `dt` ms. -/
def affIntegrate (dt : ℚ) (s : AffState) : AffState :=
  { v := s.v + dt * ((v_rest - s.v - s.a) / tau)
    a := s.a + dt * (-s.a / 100) }

/-- One afferent time step: integrate, detect `v > v_thresh`, add `w` per
incoming input spike (`nIn` of them), then reset (`v = v_reset; a += 2*mV`)
if the unit spiked.  Returns the new state and whether it spiked. -/
def affStep (dt w : ℚ) (nIn : ℕ) (s : AffState) : AffState × Bool :=
  let s1 := affIntegrate dt s
  let spiked := decide (v_thresh < s1.v)
  let s2 : AffState := { s1 with v := s1.v + w * nIn }
  let s3 : AffState :=
    if spiked then { v := v_reset, a := s2.a + 2 } else s2
  (s3, spiked)

/-- Run one afferent unit over a train of per-step incoming spike counts;
returns the final state and the unit's total spike count. -/
def affRun (dt w : ℚ) (s : AffState) : List ℕ → AffState × ℕ
  | [] => (s, 0)
  | nIn :: rest =>
      let step := affStep dt w nIn s
      let tail := affRun dt w step.1 rest
      (tail.1, (if step.2 then 1 else 0) + tail.2)

/-- Total afferent-population spike count over per-unit trains of incoming
spike counts, each unit starting from `affInit` — what
`spikemon_afferent.num_spikes` accumulates. -/
def affPopSpikes (dt w : ℚ) (trains : List (List ℕ)) : ℕ :=
  (trains.map (fun t => (affRun dt w affInit t).2)).sum

/-- One cerebellar time step (no adaptation): integrate, detect
`v > v_thresh`, add `w` per incoming afferent spike, reset `v = v_reset`
if spiked. -/
def cerStep (dt w : ℚ) (nIn : ℕ) (v : ℚ) : ℚ × Bool :=
  let v1 := v + dt * ((v_rest - v) / tau)
  let spiked := decide (v_thresh < v1)
  let v2 := v1 + w * nIn
  (if spiked then v_reset else v2, spiked)

/-- Run one cerebellar unit over a train of per-step incoming spike counts;
initial `v` is passed in (`cerebellar_layer.v = v_rest`, line 105). -/
def cerRun (dt w : ℚ) (v : ℚ) : List ℕ → ℚ × ℕ
  | [] => (v, 0)
  | nIn :: rest =>
      let step := cerStep dt w nIn v
      let tail := cerRun dt w step.1 rest
      (tail.1, (if step.2 then 1 else 0) + tail.2)

/-- Total cerebellar-population spike count over per-unit incoming trains,
each unit starting at `v_rest` — what `spikemon_cerebellar.num_spikes`
accumulates. -/
def cerPopSpikes (dt w : ℚ) (trains : List (List ℕ)) : ℕ :=
  (trains.map (fun t => (cerRun dt w v_rest t).2)).sum

/-! ### Connectivity -/

/-- The connected `(source, target)` pairs of
`syn_input_afferent.connect(j='i')` (line 109): among the unit pairs
that exist, those with equal indices. -/
def connInAffPairs (nIn nAff : ℕ) : Finset (ℕ × ℕ) :=
  (Finset.range nIn ×ˢ Finset.range nAff).filter (fun p => p.2 = p.1)

/-- The connected `(source, target)` pairs of
`syn_afferent_cerebellar.connect(j='i % n_cerebellar')` (line 112). -/
def connAffCerPairs (nAff nCer : ℕ) : Finset (ℕ × ℕ) :=
  (Finset.range nAff ×ˢ Finset.range nCer).filter (fun p => p.2 = p.1 % nCer)

/-! ### Command-line entry point and output effects -/

/-- Fold a digit string into a natural number; `none` on any non-digit. -/
def natOfDigits : List Char → Option ℕ → Option ℕ
  | [], acc => acc
  | c :: cs, acc =>
      match acc with
      | none => none
      | some n =>
          if c.isDigit then natOfDigits cs (some (n * 10 + (c.toNat - 48)))
          else none

/-- Modelled from the spec and Python semantics: `float(s)` as argparse's
`type=float` applies it to plain decimal literals — optional sign, digits,
optional single decimal point, at least one digit overall.  (Exponent and
special forms do not occur in the claims and are omitted.)  This is the
only duration validation the entry point performs: sign and magnitude are
not checked. -/
def floatOfString (s : String) : Option ℚ :=
  let withSign : ℚ × List Char :=
    match s.data with
    | '-' :: r => (-1, r)
    | '+' :: r => (1, r)
    | r => (1, r)
  let body := withSign.2
  if body.isEmpty then none
  else
    match body.splitOn '.' with
    | [ip] =>
        if ip.isEmpty then none
        else (natOfDigits ip (some 0)).map (fun a => withSign.1 * a)
    | [ip, fp] =>
        if ip.isEmpty ∧ fp.isEmpty then none
        else
          match natOfDigits ip (some 0), natOfDigits fp (some 0) with
          | some a, some b =>
              some (withSign.1 * ((a : ℚ) + (b : ℚ) / (10 : ℚ) ^ fp.length))
          | _, _ => none
    | _ => none

/-- An observable effect of one of the two scripts. -/
inductive ScriptEffect where
  | makedirs : String → ScriptEffect
  | writeFile : String → ScriptEffect
  | printLine : String → ScriptEffect
deriving DecidableEq, Repr

/-- Whether an effect touches the filesystem (directory creation or file
write), as opposed to standard output. -/
def ScriptEffect.isFilesystem : ScriptEffect → Bool
  | .makedirs _ => true
  | .writeFile _ => true
  | .printLine _ => false

/-- Whether an effect is a file write (persisting data), as opposed to
directory creation or printing. -/
def ScriptEffect.isWrite : ScriptEffect → Bool
  | .writeFile _ => true
  | _ => false

/-- The report block of `run_sim` (lines 126-129), given the three spike
counts the monitors accumulated. -/
def reportLines (mode : String) (counts : ℕ × ℕ × ℕ) : List String :=
  ["Scenario: " ++ mode,
   "Input spikes     : " ++ toString counts.1,
   "Afferent spikes  : " ++ toString counts.2.1,
   "Cerebellar spikes: " ++ toString counts.2.2]

/-- Effects of a successful `run_sim` invocation (appendix path): the four
`print` calls and nothing else — no filesystem effect appears anywhere in
`appendix_A_brian2.py`. -/
def appendixRunEffects (mode : String) (counts : ℕ × ℕ × ℕ) :
    List ScriptEffect :=
  (reportLines mode counts).map .printLine

/-- Effects of `src/run_baseline.py` top to bottom: one
`os.makedirs("results", exist_ok=True)` (line 4), then the single `print`
of the counts (lines 46-48).  No file is ever written. -/
def runBaselineEffects (counts : ℕ × ℕ × ℕ) : List ScriptEffect :=
  [.makedirs "results",
   .printLine ("Baseline → Input: " ++ toString counts.1 ++
     " Afferent: " ++ toString counts.2.1 ++
     " Cerebellar: " ++ toString counts.2.2)]

/-- Outcome of one CLI invocation: process exit status and the lines it
printed (argparse usage/error text abbreviated to its key message). -/
structure CliOutcome where
  exitStatus : ℕ
  output : List String
deriving DecidableEq, Repr

/-- The `__main__` block (appendix_A_brian2.py lines 139-151) with both
options supplied: argparse rejects a `--mode` outside its `choices` list
and a `--duration` that `float` cannot parse, exiting with status 2; any
parsed float — zero or negative included — is passed straight to
`run_sim`, whose engine-level run completes and prints the report (the
spike counts the engine produced are an explicit argument, standing for
the out-of-scope Poisson randomness; at non-positive parsed durations the
repository's own code performs no further check). -/
def cliMain (modeArg durArg : String) (engineCounts : ℕ × ℕ × ℕ) :
    CliOutcome :=
  if modeArg ∉ modeChoices then
    { exitStatus := 2
      output := ["argument --mode: invalid choice: " ++ modeArg] }
  else
    match floatOfString durArg with
    | none =>
        { exitStatus := 2
          output := ["argument --duration: invalid float value: " ++ durArg] }
    | some _ =>
        { exitStatus := 0, output := reportLines modeArg engineCounts }

/-- The concrete network `run_sim` builds for the baseline defaults
(`run_sim("baseline")` with the signature's default arguments). -/
def baselineNet : BuiltNetwork :=
  { input_layer := { n := 10, rate_hz := 50 }
    afferent_layer := { n := 10, consts := neuronConsts, hasAdaptation := true }
    cerebellar_layer :=
      { n := 5, consts := neuronConsts, hasAdaptation := false }
    syn_input_afferent := { nSource := 10, nTarget := 10, weight_mV := 1 }
    syn_afferent_cerebellar := { nSource := 10, nTarget := 5, weight_mV := 6/5 }
    duration_s := 1
    dt_ms := 1/10 }

/-! ### Helper lemmas -/

/-- Membership characterization for the one-to-one pathway. -/
lemma mem_connInAffPairs (nIn nAff i j : ℕ) :
    (i, j) ∈ connInAffPairs nIn nAff ↔ i < nIn ∧ j < nAff ∧ j = i := by
  simp [connInAffPairs, and_assoc]

/-- Membership characterization for the modulo fan-in pathway. -/
lemma mem_connAffCerPairs (nAff nCer i j : ℕ) :
    (i, j) ∈ connAffCerPairs nAff nCer ↔ i < nAff ∧ j < nCer ∧ j = i % nCer := by
  simp [connAffCerPairs, and_assoc]

/-- The one-to-one pathway is the diagonal on the first `min` indices. -/
lemma connInAffPairs_eq_image (nIn nAff : ℕ) :
    connInAffPairs nIn nAff =
      (Finset.range (min nIn nAff)).image (fun i => (i, i)) := by
  ext p
  obtain ⟨i, j⟩ := p
  simp only [mem_connInAffPairs, Finset.mem_image, Finset.mem_range]
  constructor
  · rintro ⟨h1, h2, rfl⟩
    exact ⟨j, by omega, rfl⟩
  · rintro ⟨k, hk, hkeq⟩
    injection hkeq with h1 h2
    subst h1
    subst h2
    omega

/-- A cerebellar unit resting at `v_rest` with zero synaptic weight stays
at `v_rest` and does not spike during one step. -/
lemma cerStep_at_rest (dt : ℚ) (nIn : ℕ) :
    cerStep dt 0 nIn v_rest = (v_rest, false) := by
  simp [cerStep, v_rest, v_thresh, tau]
  norm_num

/-- With zero synaptic weight the cerebellar unit stays at rest forever
and never spikes. -/
lemma cerRun_at_rest (dt : ℚ) (train : List ℕ) :
    cerRun dt 0 v_rest train = (v_rest, 0) := by
  induction train with
  | nil => rfl
  | cons n rest ih => simp [cerRun, cerStep_at_rest, ih]

/-- An afferent unit at the initial state with zero synaptic weight stays
there and does not spike during one step. -/
lemma affStep_at_rest (dt : ℚ) (nIn : ℕ) :
    affStep dt 0 nIn affInit = (affInit, false) := by
  simp [affStep, affIntegrate, affInit, v_rest, v_thresh, tau]
  norm_num

/-- With zero synaptic weight the afferent unit stays at its initial state
forever and never spikes. -/
lemma affRun_at_rest (dt : ℚ) (train : List ℕ) :
    affRun dt 0 affInit train = (affInit, 0) := by
  induction train with
  | nil => rfl
  | cons n rest ih => simp [affRun, affStep_at_rest, ih]

/-- A spiking afferent unit ends the step with `v = v_reset`. -/
lemma affStep_spiked_v (dt w : ℚ) (nIn : ℕ) (s : AffState)
    (h : (affStep dt w nIn s).2 = true) :
    ((affStep dt w nIn s).1).v = v_reset := by
  have h' : decide (v_thresh < (affIntegrate dt s).v) = true := h
  simp [affStep, h']

/-- A spiking cerebellar unit ends the step with `v = v_reset`. -/
lemma cerStep_spiked_v (dt w : ℚ) (nIn : ℕ) (v : ℚ)
    (h : (cerStep dt w nIn v).2 = true) :
    (cerStep dt w nIn v).1 = v_reset := by
  have h' : decide (v_thresh < v + dt * ((v_rest - v) / tau)) = true := h
  simp [cerStep, h']

/-! ### Claims -/

/-- C1: scenario parameter resolution is a pure, total, deterministic
function of the mode name — baseline yields the configured defaults,
hypofunction overrides the rate to 15 Hz, afferent_silencing zeroes the
input→afferent weight, synaptic_blockade zeroes the afferent→cerebellar
weight, and resolving the same mode twice yields identical tuples. -/
theorem claim_C1_mode_resolution (r w1 w2 : ℚ) :
    resolveMode "baseline" r w1 w2 = some (r, w1, w2) ∧
    resolveMode "hypofunction" r w1 w2 = some (15, w1, w2) ∧
    resolveMode "afferent_silencing" r w1 w2 = some (r, 0, w2) ∧
    resolveMode "synaptic_blockade" r w1 w2 = some (r, w1, 0) ∧
    ∀ mode, resolveMode mode r w1 w2 = resolveMode mode r w1 w2 :=
  ⟨rfl, rfl, rfl, rfl, fun _ => rfl⟩

/-- C2: for every mode outside the four recognized names, `run_sim` fails
with the unknown-mode (InvalidScenario) error, and the resource trace is
empty — no population, pathway or monitor is constructed on this error. -/
theorem claim_C2_unknown_mode_no_resources (mode : String) (d dt : ℚ)
    (ni na nc : ℤ) (r w1 w2 : ℚ) (h : mode ∉ modeChoices) :
    run_sim mode d dt ni na nc r w1 w2 =
      .error (.unknownMode mode) ∧
    run_simResources mode d dt ni na nc r w1 w2 = [] := by
  have hmode : resolveMode mode r w1 w2 = none := by
    simp only [modeChoices, List.mem_cons, List.not_mem_nil, or_false,
      not_or] at h
    simp [resolveMode, h.1, h.2.1, h.2.2.1, h.2.2.2]
  refine ⟨?_, ?_⟩
  · simp [run_sim, hmode]
  · simp [run_simResources, run_sim, hmode]

/-- Witness for C2 at the concrete unknown mode string `"bogus"`. -/
theorem claim_C2_witness :
    run_sim "bogus" 1 (1/10) 10 10 5 50 1 (6/5) =
      .error (.unknownMode "bogus") ∧
    run_simResources "bogus" 1 (1/10) 10 10 5 50 1 (6/5) = [] :=
  claim_C2_unknown_mode_no_resources "bogus" 1 (1/10) 10 10 5 50 1 (6/5)
    (by decide)

/-- C3 counterexample: `run_sim` invoked with non-positive sizes, duration
and step (all zero) and a valid mode succeeds instead of failing — the
code performs no InvalidParameter validation at all. -/
theorem claim_C3_counterexample :
    (run_sim "baseline" 0 0 0 0 0 50 1 (6/5)).isOk = true := by
  decide

/-- C3 (amended): `run_sim` performs no validation of population sizes,
duration, or integration step — for every valid mode and every parameter
set, non-positive values included, it succeeds and passes the values
through to the engine unchanged; the repository's code defines no
InvalidParameter error. -/
theorem claim_C3_no_parameter_validation (mode : String) (d dt : ℚ)
    (ni na nc : ℤ) (r w1 w2 : ℚ) (h : mode ∈ modeChoices) :
    ∃ net, run_sim mode d dt ni na nc r w1 w2 = .ok net ∧
      net.input_layer.n = ni ∧ net.afferent_layer.n = na ∧
      net.cerebellar_layer.n = nc ∧ net.duration_s = d ∧ net.dt_ms = dt := by
  simp only [modeChoices, List.mem_cons, List.not_mem_nil, or_false] at h
  rcases h with h | h | h | h <;> subst h <;>
    exact ⟨_, rfl, rfl, rfl, rfl, rfl, rfl⟩

/-- Witness for C3 (amended) at a negative population size and zero
duration and step. -/
theorem claim_C3_witness :
    ∃ net, run_sim "baseline" 0 0 (-3) 0 0 50 1 (6/5) = .ok net ∧
      net.input_layer.n = -3 ∧ net.afferent_layer.n = 0 ∧
      net.cerebellar_layer.n = 0 ∧ net.duration_s = 0 ∧ net.dt_ms = 0 :=
  claim_C3_no_parameter_validation "baseline" 0 0 (-3) 0 0 50 1 (6/5)
    (by decide)

/-- C4: in synaptic_blockade mode the afferent→cerebellar weight resolves
to 0, and then — for every time step, every initial randomness and every
afferent spike train — each cerebellar unit stays exactly at `v_rest`
(never crossing `v_thresh`) and the reported cerebellar spike count is 0. -/
theorem claim_C4_blockade_cerebellar_silent (r w1 w2 rate wa wc dt : ℚ)
    (h : resolveMode "synaptic_blockade" r w1 w2 = some (rate, wa, wc)) :
    (∀ train, cerRun dt wc v_rest train = (v_rest, 0)) ∧
    ∀ trains, cerPopSpikes dt wc trains = 0 := by
  have hwc : wc = 0 := by
    simp [resolveMode] at h
    exact h.2.2.symm
  subst hwc
  refine ⟨fun train => cerRun_at_rest dt train, fun trains => ?_⟩
  simp [cerPopSpikes, cerRun_at_rest]

/-- Witness for C4 at concrete defaults and a concrete nonempty train. -/
theorem claim_C4_witness :
    cerRun (1/10) 0 v_rest [3, 0, 2] = (v_rest, 0) ∧
    cerPopSpikes (1/10) 0 [[3, 0, 2], [1], []] = 0 :=
  ⟨(claim_C4_blockade_cerebellar_silent 50 1 (6/5) 50 1 0 (1/10) rfl).1
      [3, 0, 2],
   (claim_C4_blockade_cerebellar_silent 50 1 (6/5) 50 1 0 (1/10) rfl).2
      [[3, 0, 2], [1], []]⟩

/-- C5: in afferent_silencing mode the input→afferent weight resolves to
0, and then — with no other external drive, starting from `v = v_rest`
and `a = 0` — each afferent unit stays exactly at its initial state for
every input spike train, and the reported afferent spike count is 0. -/
theorem claim_C5_silencing_afferent_silent (r w1 w2 rate wa wc dt : ℚ)
    (h : resolveMode "afferent_silencing" r w1 w2 = some (rate, wa, wc)) :
    (∀ train, affRun dt wa affInit train = (affInit, 0)) ∧
    ∀ trains, affPopSpikes dt wa trains = 0 := by
  have hwa : wa = 0 := by
    simp [resolveMode] at h
    exact h.2.1.symm
  subst hwa
  refine ⟨fun train => affRun_at_rest dt train, fun trains => ?_⟩
  simp [affPopSpikes, affRun_at_rest]

/-- Witness for C5 at concrete defaults and a concrete nonempty train. -/
theorem claim_C5_witness :
    affRun (1/10) 0 affInit [2, 4] = (affInit, 0) ∧
    affPopSpikes (1/10) 0 [[2, 4], [7]] = 0 :=
  ⟨(claim_C5_silencing_afferent_silent 50 1 (6/5) 50 0 (6/5) (1/10) rfl).1
      [2, 4],
   (claim_C5_silencing_afferent_silent 50 1 (6/5) 50 0 (6/5) (1/10) rfl).2
      [[2, 4], [7]]⟩

/-- C6: the input→afferent pathway connects source `i` to target `i`; with
equal sizes it is a bijection (each source has exactly one target and each
target exactly one source), and with unequal sizes exactly
`min n_input n_afferent` pairs connect while every index at or beyond the
minimum is unconnected on both sides. -/
theorem claim_C6_one_to_one (nIn nAff : ℕ) :
    (∀ i j, (i, j) ∈ connInAffPairs nIn nAff ↔ i < nIn ∧ j < nAff ∧ j = i) ∧
    (connInAffPairs nIn nAff).card = min nIn nAff ∧
    (nIn = nAff →
      (∀ i < nIn, ∃! j, (i, j) ∈ connInAffPairs nIn nAff) ∧
      (∀ j < nAff, ∃! i, (i, j) ∈ connInAffPairs nIn nAff)) ∧
    (∀ k, min nIn nAff ≤ k →
      (∀ j, (k, j) ∉ connInAffPairs nIn nAff) ∧
      (∀ i, (i, k) ∉ connInAffPairs nIn nAff)) := by
  refine ⟨mem_connInAffPairs nIn nAff, ?_, ?_, ?_⟩
  · rw [connInAffPairs_eq_image, Finset.card_image_of_injective _
      (fun a b hab => congrArg Prod.fst hab), Finset.card_range]
  · rintro rfl
    constructor
    · intro i hi
      exact ⟨i, (mem_connInAffPairs ..).2 ⟨hi, hi, rfl⟩,
        fun j hj => ((mem_connInAffPairs ..).1 hj).2.2⟩
    · intro j hj
      refine ⟨j, (mem_connInAffPairs ..).2 ⟨hj, hj, rfl⟩, fun i hi => ?_⟩
      have := (mem_connInAffPairs ..).1 hi
      omega
  · intro k hk
    constructor
    · intro j hj
      have := (mem_connInAffPairs ..).1 hj
      omega
    · intro i hi
      have := (mem_connInAffPairs ..).1 hi
      omega

/-- Witness for C6: the spec's 10/10 instance via the theorem — full
cardinality and a unique partner for source 7. -/
theorem claim_C6_witness :
    (connInAffPairs 10 10).card = 10 ∧
    ∃! j, ((7 : ℕ), j) ∈ connInAffPairs 10 10 :=
  ⟨(claim_C6_one_to_one 10 10).2.1,
   ((claim_C6_one_to_one 10 10).2.2.1 rfl).1 7 (by decide)⟩

/-- C7: the afferent→cerebellar pathway maps source `i` to target
`i mod n_cerebellar`, so (for a positive cerebellar size) every afferent
unit connects to exactly one cerebellar unit; in the 10/5 instance each
source `i < 10` connects to `i mod 5` and to nothing else. -/
theorem claim_C7_modulo_fan_in (nAff nCer : ℕ) (h : 0 < nCer) :
    (∀ i j, (i, j) ∈ connAffCerPairs nAff nCer ↔
      i < nAff ∧ j < nCer ∧ j = i % nCer) ∧
    (∀ i < nAff, ∃! j, (i, j) ∈ connAffCerPairs nAff nCer) ∧
    (∀ i < 10, (i, i % 5) ∈ connAffCerPairs 10 5 ∧
      ∀ j, (i, j) ∈ connAffCerPairs 10 5 → j = i % 5) := by
  refine ⟨mem_connAffCerPairs nAff nCer, ?_, ?_⟩
  · intro i hi
    exact ⟨i % nCer,
      (mem_connAffCerPairs ..).2 ⟨hi, Nat.mod_lt i h, rfl⟩,
      fun j hj => ((mem_connAffCerPairs ..).1 hj).2.2⟩
  · intro i hi
    exact ⟨(mem_connAffCerPairs ..).2 ⟨hi, Nat.mod_lt i (by omega), rfl⟩,
      fun j hj => ((mem_connAffCerPairs ..).1 hj).2.2⟩

/-- Witness for C7 at the spec's 10/5 instance: afferent 7 connects to
cerebellar 2 and to exactly one target. -/
theorem claim_C7_witness :
    ((7 : ℕ), (2 : ℕ)) ∈ connAffCerPairs 10 5 ∧
    ∃! j, ((7 : ℕ), j) ∈ connAffCerPairs 10 5 :=
  ⟨((claim_C7_modulo_fan_in 10 5 (by decide)).2.2 7 (by decide)).1,
   (claim_C7_modulo_fan_in 10 5 (by decide)).2.1 7 (by decide)⟩

/-- C8 counterexample: the duration value `0` is not a positive real
number of seconds, yet the entry point accepts it — argparse's only
duration check is float conversion — and the process runs to a normal
exit with status 0 instead of exiting non-zero. -/
theorem claim_C8_counterexample :
    cliMain "baseline" "0" (0, 0, 0) =
      { exitStatus := 0, output := reportLines "baseline" (0, 0, 0) } := by
  decide

/-- C8 (amended): an invalid scenario selector exits with the non-zero
argparse status 2 and a message naming the bad choice, and a duration
that cannot be parsed as a float likewise exits non-zero with a message;
but a parseable non-positive duration is not rejected. -/
theorem claim_C8_cli_rejections (m d : String) (counts : ℕ × ℕ × ℕ) :
    (m ∉ modeChoices →
      cliMain m d counts =
        { exitStatus := 2
          output := ["argument --mode: invalid choice: " ++ m] } ∧
      (cliMain m d counts).exitStatus ≠ 0) ∧
    (m ∈ modeChoices → floatOfString d = none →
      cliMain m d counts =
        { exitStatus := 2
          output := ["argument --duration: invalid float value: " ++ d] } ∧
      (cliMain m d counts).exitStatus ≠ 0) := by
  constructor
  · intro h
    simp [cliMain, h]
  · intro h hd
    simp [cliMain, h, hd]

/-- Witness for C8 (amended): the unknown selector `"bogus"` and the
unparseable duration `"abc"` both exit non-zero. -/
theorem claim_C8_witness :
    (cliMain "bogus" "1.0" (0, 0, 0)).exitStatus ≠ 0 ∧
    (cliMain "baseline" "abc" (0, 0, 0)).exitStatus ≠ 0 :=
  ⟨((claim_C8_cli_rejections "bogus" "1.0" (0, 0, 0)).1 (by decide)).2,
   ((claim_C8_cli_rejections "baseline" "abc" (0, 0, 0)).2 (by decide)
      (by decide)).2⟩

/-- C9 counterexample: the trace of `src/run_baseline.py` contains no file
write at all — the script creates the `results` directory but never
persists any result under it. -/
theorem claim_C9_counterexample :
    (runBaselineEffects (479, 512, 37)).all
      (fun e => !(ScriptEffect.isWrite e)) = true := by
  decide

/-- C9 (amended): the appendix entry point's effects are exactly the four
report lines printed to standard output — no filesystem effect — while
`run_baseline.py` creates the fixed `results` directory if absent but
writes no file there: its counts are also only printed. -/
theorem claim_C9_output_effects (mode : String) (c c2 : ℕ × ℕ × ℕ) :
    appendixRunEffects mode c = (reportLines mode c).map .printLine ∧
    (∀ e ∈ appendixRunEffects mode c, e.isFilesystem = false) ∧
    ScriptEffect.makedirs "results" ∈ runBaselineEffects c2 ∧
    ∀ p, ScriptEffect.writeFile p ∉ runBaselineEffects c2 := by
  refine ⟨rfl, ?_, ?_, ?_⟩
  · intro e he
    simp [appendixRunEffects] at he
    obtain ⟨s, _, rfl⟩ := he
    rfl
  · simp [runBaselineEffects]
  · intro p
    simp [runBaselineEffects]

/-- C10: in every mode and for every parameter set, both layers of the
network `run_sim` builds carry the same fixed neuron constants —
`tau = 10 ms`, `v_rest = v_reset = -65 mV`, `v_thresh = -50 mV`, the same
values `run_baseline.py` uses — and since `v_reset = v_rest`, a unit that
spikes during a step ends that step with `v` equal to the initial resting
value. -/
theorem claim_C10_constants (mode : String) (d dt : ℚ) (ni na nc : ℤ)
    (r w1 w2 : ℚ) (net : BuiltNetwork)
    (h : run_sim mode d dt ni na nc r w1 w2 = .ok net) :
    net.afferent_layer.consts = neuronConsts ∧
    net.cerebellar_layer.consts = neuronConsts ∧
    runBaselineConsts = neuronConsts ∧
    neuronConsts =
      { tau := 10, v_rest := -65, v_reset := -65, v_thresh := -50 } ∧
    v_reset = v_rest ∧
    (∀ dt' w nIn s, (affStep dt' w nIn s).2 = true →
      ((affStep dt' w nIn s).1).v = affInit.v) ∧
    (∀ dt' w nIn v, (cerStep dt' w nIn v).2 = true →
      (cerStep dt' w nIn v).1 = v_rest) := by
  refine ⟨?_, ?_, rfl, rfl, rfl, ?_, ?_⟩
  · unfold run_sim at h
    cases hr : resolveMode mode r w1 w2 with
    | none => rw [hr] at h; exact absurd h (by simp)
    | some t =>
        obtain ⟨rate, wa, wc⟩ := t
        rw [hr] at h
        simp only [Except.ok.injEq] at h
        rw [← h]
  · unfold run_sim at h
    cases hr : resolveMode mode r w1 w2 with
    | none => rw [hr] at h; exact absurd h (by simp)
    | some t =>
        obtain ⟨rate, wa, wc⟩ := t
        rw [hr] at h
        simp only [Except.ok.injEq] at h
        rw [← h]
  · intro dt' w nIn s hs
    have hv := affStep_spiked_v dt' w nIn s hs
    rw [hv]
    rfl
  · intro dt' w nIn v hs
    exact cerStep_spiked_v dt' w nIn v hs

/-- Witness for C10 at the baseline defaults. -/
theorem claim_C10_witness :
    baselineNet.afferent_layer.consts = neuronConsts ∧
    runBaselineConsts = neuronConsts ∧ v_reset = v_rest :=
  ⟨(claim_C10_constants "baseline" 1 (1/10) 10 10 5 50 1 (6/5) baselineNet
      rfl).1,
   (claim_C10_constants "baseline" 1 (1/10) 10 10 5 50 1 (6/5) baselineNet
      rfl).2.2.1,
   (claim_C10_constants "baseline" 1 (1/10) 10 10 5 50 1 (6/5) baselineNet
      rfl).2.2.2.2.1⟩

end VestibularSNN
